import Mathlib

/-!
Verification of the Siamese one-shot-learning model in `model.py`
(`SiameseNetwork`, a `keras.Model` subclass).

The model is shallowly embedded: a tensor is a flat list of real scalars;
each keras layer instantiated in `__init__` is represented by the
transformation it denotes (the convolution/pooling blocks as abstract
tensor transformations carrying their freshly initialised parameters,
the two `Dense` layers concretely as kernel/bias data with the sigmoid
activation); Python exceptions are modelled with `Except`.

Two behaviours of `SiameseNetwork.call` are modelled exactly as written
in the source:
  * the inner function `encoder(x)` immediately rebinds `x` to
    `self.input_layer(inputs)` (line 102), so its parameter is dead and
    both "tower" invocations encode the closed-over `inputs`;
  * after the distance is computed, line 124 executes
    `x = self.prediction(x)` where the local `x` of `call` has never been
    assigned, so every invocation of `call` raises `UnboundLocalError`.
-/

namespace Siamese

/-- A real-valued tensor, flattened to a list of scalars. -/
abbrev Tensor := List ℝ

/-- Python exceptions that the modelled methods can raise. -/
inductive PyError where
  /-- `UnboundLocalError`: a local variable is read before assignment
  (line 124 of `model.py`, `x = self.prediction(x)` inside `call`). -/
  | unboundLocalError
  /-- `IndexError`: `shape[-1]` on an empty list in `compute_output_shape`. -/
  | indexError
deriving DecidableEq

/-- Logistic sigmoid, `keras.activations.sigmoid`. -/
noncomputable def sigmoid (z : ℝ) : ℝ := 1 / (1 + Real.exp (-z))

/-- Dot product of a weight row with an input vector. -/
def dot (w v : List ℝ) : ℝ := ((w.zip v).map fun p => p.1 * p.2).sum

/-- A `keras.layers.Dense` layer with sigmoid activation: the configured
number of units together with its kernel (one weight row per unit) and
bias vector. -/
structure Dense where
  units : Int
  kernel : List (List ℝ)
  bias : List ℝ

/-- Applying a sigmoid-activated `Dense` layer: each output unit is the
sigmoid of the affine form given by its weight row and bias entry. -/
noncomputable def Dense.apply (d : Dense) (v : Tensor) : Tensor :=
  (d.kernel.zip d.bias).map fun wb => sigmoid (dot wb.1 v + wb.2)

/-- The encoder-side layers instantiated once in `__init__`:
`InputLayer` (applied in `call` to the raw `inputs` object, hence its
argument type), the four Conv2D + MaxPool2D blocks and `Flatten`
(abstract tensor transformations carrying their initialised parameters),
and the 4096-unit sigmoid `Dense` layer. -/
structure EncoderParams where
  input_layer : Tensor × Tensor → Tensor
  conv1 : Tensor → Tensor
  pool1 : Tensor → Tensor
  conv2 : Tensor → Tensor
  pool2 : Tensor → Tensor
  conv3 : Tensor → Tensor
  pool3 : Tensor → Tensor
  conv4 : Tensor → Tensor
  pool4 : Tensor → Tensor
  flatten : Tensor → Tensor
  dense : Dense

/-- The `SiameseNetwork` object: configuration plus the layer objects
created in `__init__` (each field instantiated exactly once). -/
structure SiameseNetwork where
  num_classes : Int
  batch_size : Int
  in_shape : List Int
  input_layer : Tensor × Tensor → Tensor
  conv1 : Tensor → Tensor
  pool1 : Tensor → Tensor
  conv2 : Tensor → Tensor
  pool2 : Tensor → Tensor
  conv3 : Tensor → Tensor
  pool3 : Tensor → Tensor
  conv4 : Tensor → Tensor
  pool4 : Tensor → Tensor
  flatten : Tensor → Tensor
  dense : Dense
  prediction : Dense

/-- `SiameseNetwork.__init__`: stores `num_classes` (default 1),
`batch_size` (default 16) and `input_shape` (default (105,105,1)), and
instantiates every layer exactly once.  `enc` carries the freshly
initialised encoder-layer parameters; `predKernel`/`predBias` those of
the output `Dense(units=num_classes, activation=sigmoid)` layer.
The body performs no validation of `num_classes`. -/
def SiameseNetwork.init (num_classes : Int) (batch_size : Int)
    (in_shape : List Int) (enc : EncoderParams)
    (predKernel : List (List ℝ)) (predBias : List ℝ) : SiameseNetwork :=
  { num_classes := num_classes
    batch_size := batch_size
    in_shape := in_shape
    input_layer := enc.input_layer
    conv1 := enc.conv1
    pool1 := enc.pool1
    conv2 := enc.conv2
    pool2 := enc.pool2
    conv3 := enc.conv3
    pool3 := enc.pool3
    conv4 := enc.conv4
    pool4 := enc.pool4
    flatten := enc.flatten
    dense := enc.dense
    prediction := { units := num_classes, kernel := predKernel, bias := predBias } }

/-- `__init__` as a fallible call: its body contains no `raise` and no
validation, so it always returns the constructed object. -/
def SiameseNetwork.initE (num_classes : Int) (batch_size : Int)
    (in_shape : List Int) (enc : EncoderParams)
    (predKernel : List (List ℝ)) (predBias : List ℝ) :
    Except PyError SiameseNetwork :=
  Except.ok (SiameseNetwork.init num_classes batch_size in_shape enc predKernel predBias)

/-- 6th layer, `self.l1 = keras.layers.Lambda(lambda x: tf.abs(x[0] - x[1]))`:
element-wise absolute difference of a pair of tensors. -/
def l1 (x : Tensor × Tensor) : Tensor :=
  (x.1.zip x.2).map fun p => |p.1 - p.2|

/-- The inner function `encoder(x)` of `SiameseNetwork.call`
(lines 100-114).  Faithful to the source: the first statement is
`x = self.input_layer(inputs)`, which rebinds `x` to a value computed
from the closed-over `inputs`, so the parameter is never read. -/
noncomputable def SiameseNetwork.encoder (self : SiameseNetwork)
    (inputs : Tensor × Tensor) ( x : Tensor) : Tensor :=
  let x := self.input_layer inputs
  let x := self.pool1 (self.conv1 x)
  let x := self.pool2 (self.conv2 x)
  let x := self.pool3 (self.conv3 x)
  let x := self.pool4 (self.conv4 x)
  let x := self.flatten x
  let x := Dense.apply self.dense x
  x

/-- `SiameseNetwork.call` (lines 82-126): encodes the two sister-network
inputs, computes the L1 distance, then executes `x = self.prediction(x)`
— but the local `x` of `call` has never been assigned at that point, so
the method always raises `UnboundLocalError`; the computed `distance` is
discarded. -/
noncomputable def SiameseNetwork.call (self : SiameseNetwork)
    (inputs : Tensor × Tensor) : Except PyError Tensor :=
  let first := self.encoder inputs inputs.1
  let second := self.encoder inputs inputs.2
  let distance := l1 (first, second)
  Except.error PyError.unboundLocalError

/-- The value bound to `distance` on line 121 of `call`, just before the
failing line: the L1 layer applied to the two tower embeddings. -/
noncomputable def SiameseNetwork.callDistance (self : SiameseNetwork)
    (inputs : Tensor × Tensor) : Tensor :=
  l1 (self.encoder inputs inputs.1, self.encoder inputs inputs.2)

/-- The composite transformation the encoder layers denote, as a function
of the single parameter record `enc` (lines 102-114 of the source). -/
noncomputable def encoderApply (enc : EncoderParams)
    (inputs : Tensor × Tensor) : Tensor :=
  Dense.apply enc.dense
    (enc.flatten
      (enc.pool4 (enc.conv4
        (enc.pool3 (enc.conv3
          (enc.pool2 (enc.conv2
            (enc.pool1 (enc.conv1 (enc.input_layer inputs))))))))))

/-- `SiameseNetwork.compute_output_shape` (lines 128-131): converts the
input shape to a list, assigns `shape[-1] = self.num_classes`
(an `IndexError` if the shape is empty) and returns it. -/
def SiameseNetwork.compute_output_shape (self : SiameseNetwork)
    (input_shape : List Int) : Except PyError (List Int) :=
  match input_shape with
  | [] => Except.error PyError.indexError
  | _ :: _ => Except.ok (input_shape.dropLast ++ [self.num_classes])

/-- A concrete 1-unit Dense parameter set, for evaluating the model on
concrete inputs. -/
def exDense : Dense := { units := 1, kernel := [[1]], bias := [0] }

/-- A concrete encoder parameter set, for evaluating the model on
concrete inputs. -/
def exParams : EncoderParams :=
  { input_layer := fun p => p.1 ++ p.2
    conv1 := id
    pool1 := id
    conv2 := id
    pool2 := id
    conv3 := id
    pool3 := id
    conv4 := id
    pool4 := id
    flatten := id
    dense := exDense }

/-- A concrete `SiameseNetwork` instance with `num_classes = 1` and the
default `batch_size`/`input_shape` configuration. -/
def exNet : SiameseNetwork :=
  SiameseNetwork.init 1 16 [105, 105, 1] exParams [[1]] [0]

/-- The L1 layer applied to a pair of identical tensors is the all-zero
tensor of the same length. -/
theorem l1_self (t : Tensor) : l1 (t, t) = List.replicate t.length 0 := by
  induction t with
  | nil => rfl
  | cons a t ih =>
      simp only [l1, List.zip_cons_cons, List.map_cons, List.length_cons,
        List.replicate_succ, sub_self, abs_zero] at *
      exact congrArg (List.cons 0) ih

/-- The L1 layer output has the length of its first input when the two
inputs have equal length. -/
theorem l1_length (a b : Tensor) (h : a.length = b.length) :
    (l1 (a, b)).length = a.length := by
  simp [l1, h]

/-- Element `i` of the L1 layer output is the absolute difference of the
elements `i` of its two inputs. -/
theorem l1_getD (a b : Tensor) (i : Nat) (hi : i < a.length) (hb : i < b.length) :
    (l1 (a, b)).getD i 0 = |a.getD i 0 - b.getD i 0| := by
  induction a generalizing b i with
  | nil => simp at hi
  | cons x xs ih =>
      cases b with
      | nil => simp at hb
      | cons y ys =>
          cases i with
          | zero => simp [l1]
          | succ j =>
              have h1 : j < xs.length := Nat.lt_of_succ_lt_succ hi
              have h2 : j < ys.length := Nat.lt_of_succ_lt_succ hb
              simpa [l1] using ih ys j h1 h2

/-- Every element of the L1 layer output is non-negative. -/
theorem l1_nonneg (a b : Tensor) : ∀ y ∈ l1 (a, b), 0 ≤ y := by
  intro y hy
  simp only [l1, List.mem_map] at hy
  obtain ⟨p, -, rfl⟩ := hy
  exact abs_nonneg _

/-- Claim C1: the spec says the forward pass returns
`Classifier(Distance(first, second))`; in the code the prediction layer
is applied to the never-assigned local `x` of `call`, so the forward
pass on a valid pair raises `UnboundLocalError` instead of producing
that output. -/
theorem call_raises_unbound_local :
    exNet.call ([(0:ℝ)], [(1:ℝ)]) = Except.error PyError.unboundLocalError := rfl

/-- Claim C2: the spec says each tower invocation encodes its own image;
in the code `encoder` ignores its argument (it reads the closed-over
`inputs`), so on a pair of two distinct images both invocations return
the same embedding. -/
theorem encoder_ignores_image_argument :
    ([(0:ℝ)] : Tensor) ≠ ([(1:ℝ)] : Tensor) ∧
    exNet.encoder ([(0:ℝ)], [(1:ℝ)]) [(0:ℝ)] =
      exNet.encoder ([(0:ℝ)], [(1:ℝ)]) [(1:ℝ)] :=
  ⟨by norm_num, rfl⟩

/-- Claim C3: a network built by `__init__` from one encoder parameter
record evaluates both tower invocations through that single parameter
set — each invocation, whatever image it receives, computes exactly the
transformation `encoderApply` of the one record `enc`; in particular
encoding the same image through both tower invocations yields identical
embeddings. -/
theorem encoder_single_parameter_set (nc bs : Int) (sh : List Int)
    (enc : EncoderParams) (pk : List (List ℝ)) (pb : List ℝ)
    (inputs : Tensor × Tensor) (a b : Tensor) :
    (SiameseNetwork.init nc bs sh enc pk pb).encoder inputs a = encoderApply enc inputs ∧
    (SiameseNetwork.init nc bs sh enc pk pb).encoder inputs b = encoderApply enc inputs :=
  ⟨rfl, rfl⟩

/-- Claim C4: the spec says the forward pass on a valid
`(batch, 105, 105, 1)` pair returns a result of shape
`(batch, num_classes)`; in the code the forward pass on a full-size
valid input raises `UnboundLocalError` and returns no result at all. -/
theorem call_no_output_on_valid_shape :
    exNet.call (List.replicate (105 * 105) (0:ℝ), List.replicate (105 * 105) (0:ℝ)) =
      Except.error PyError.unboundLocalError := rfl

/-- Claim C5: the spec says the similarity score is symmetric in the two
images; in the code neither order of a concrete pair produces a score —
both invocations raise `UnboundLocalError`. -/
theorem call_no_score_either_order :
    exNet.call ([(1:ℝ), 2], [(3:ℝ), 4]) = Except.error PyError.unboundLocalError ∧
    exNet.call ([(3:ℝ), 4], [(1:ℝ), 2]) = Except.error PyError.unboundLocalError :=
  ⟨rfl, rfl⟩

/-- Claim C6: on two equally shaped embeddings the L1 distance layer
returns a tensor of the same length whose element `i` is the absolute
difference of the input elements `i`, and every element of the output
is non-negative. -/
theorem l1_elementwise_abs_diff (a b : Tensor) (h : a.length = b.length) :
    (l1 (a, b)).length = a.length ∧
    (∀ i, i < a.length → (l1 (a, b)).getD i 0 = |a.getD i 0 - b.getD i 0|) ∧
    ∀ y ∈ l1 (a, b), 0 ≤ y :=
  ⟨l1_length a b h, fun i hi => l1_getD a b i hi (h ▸ hi), l1_nonneg a b⟩

/-- Witness for claim C6 at the concrete pair `[1, -2]`, `[3, 5]`. -/
theorem l1_elementwise_abs_diff_witness :
    ([(1:ℝ), -2].length = [(3:ℝ), 5].length) ∧
    (l1 ([(1:ℝ), -2], [(3:ℝ), 5])).length = 2 ∧
    (l1 ([(1:ℝ), -2], [(3:ℝ), 5])).getD 1 0 = |(-2:ℝ) - 5| :=
  ⟨rfl, (l1_elementwise_abs_diff [(1:ℝ), -2] [(3:ℝ), 5] rfl).1,
    by simpa using (l1_elementwise_abs_diff [(1:ℝ), -2] [(3:ℝ), 5] rfl).2.1 1 (by norm_num)⟩

/-- Claim C7: the sigmoid activation of the prediction layer would bound
every score to `[0, 1]`, but the forward pass raises
`UnboundLocalError` before the prediction layer is ever applied, so no
score is produced at all. -/
theorem sigmoid_bounded_but_call_raises :
    (∀ z : ℝ, 0 ≤ sigmoid z ∧ sigmoid z ≤ 1) ∧
    exNet.call ([(5:ℝ)], [(6:ℝ)]) = Except.error PyError.unboundLocalError := by
  refine ⟨fun z => ?_, rfl⟩
  have hexp : 0 < Real.exp (-z) := Real.exp_pos _
  constructor
  · simp only [sigmoid]
    positivity
  · simp only [sigmoid]
    rw [div_le_one (by linarith)]
    linarith

/-- Counterexample to claim C8: on the model's rank-4 input shape
`(16, 105, 105, 1)` with `num_classes = 1`, `compute_output_shape` does
not return `(batch_size, num_classes) = (16, 1)`. -/
theorem compute_output_shape_rank4_counterexample :
    exNet.num_classes = 1 ∧
    exNet.compute_output_shape [16, 105, 105, 1] ≠ Except.ok [16, 1] := by
  refine ⟨rfl, fun h => ?_⟩
  simp [exNet, SiameseNetwork.init, SiameseNetwork.compute_output_shape] at h

/-- Claim C8 as amended: `compute_output_shape` is a pure computation
that returns the input shape with its last dimension replaced by
`num_classes` (an `IndexError` on an empty shape); this equals
`(batch_size, num_classes)` exactly when the input shape has rank 2. -/
theorem compute_output_shape_replaces_last_dim (self : SiameseNetwork)
    (input_shape : List Int) (h : input_shape ≠ []) :
    self.compute_output_shape input_shape =
      Except.ok (input_shape.dropLast ++ [self.num_classes]) := by
  cases input_shape with
  | nil => exact absurd rfl h
  | cons d ds => rfl

/-- Witness for amended claim C8 at the concrete rank-4 shape
`[16, 105, 105, 1]` (with `num_classes = 1`). -/
theorem compute_output_shape_replaces_last_dim_witness :
    ([16, 105, 105, 1] : List Int) ≠ [] ∧
    exNet.compute_output_shape [16, 105, 105, 1] = Except.ok [16, 105, 105, 1] := by
  refine ⟨by simp, ?_⟩
  exact compute_output_shape_replaces_last_dim exNet [16, 105, 105, 1] (by simp)

/-- Counterexample to claim C9: construction with the non-positive
`num_classes = 0` succeeds without any error — `__init__` performs no
validation, so nothing is rejected eagerly at construction time. -/
theorem init_accepts_nonpositive_num_classes :
    SiameseNetwork.initE 0 16 [105, 105, 1] exParams [[1]] [0] =
      Except.ok (SiameseNetwork.init 0 16 [105, 105, 1] exParams [[1]] [0]) ∧
    (SiameseNetwork.init 0 16 [105, 105, 1] exParams [[1]] [0]).num_classes = 0 :=
  ⟨rfl, rfl⟩

/-- Claim C9 as amended: construction never raises — any `num_classes`,
positive or not, is stored unvalidated and becomes the unit count of the
prediction layer; in particular positive values such as 5 succeed, but
non-positive values are not rejected eagerly either. -/
theorem init_never_raises (nc bs : Int) (sh : List Int) (enc : EncoderParams)
    (pk : List (List ℝ)) (pb : List ℝ) :
    SiameseNetwork.initE nc bs sh enc pk pb =
      Except.ok (SiameseNetwork.init nc bs sh enc pk pb) ∧
    (SiameseNetwork.init nc bs sh enc pk pb).num_classes = nc ∧
    (SiameseNetwork.init nc bs sh enc pk pb).prediction.units = nc :=
  ⟨rfl, rfl, rfl⟩

/-- Claim C10: the inner `encoder` produces the same embedding whatever
image is passed as its argument (it reads the closed-over `inputs`), so
the distance computed on line 121 of the forward pass is the all-zero
vector. -/
theorem encoder_constant_distance_zero (self : SiameseNetwork)
    (inputs : Tensor × Tensor) (a b : Tensor) :
    self.encoder inputs a = self.encoder inputs b ∧
    self.callDistance inputs =
      List.replicate (self.encoder inputs inputs.1).length 0 :=
  ⟨rfl, l1_self _⟩

end Siamese
